import Mathlib

/-!
Verification of the meshtool-go emulated radio core.

The definitions below are a shallow embedding of the Go source:
protobuf messages become Lean structures carrying the fields the
source reads and writes, byte slices become `List Nat` (each element
a byte value), `uint32` arithmetic is `Nat` with explicit `% 2 ^ 32`,
fallible operations return `Option` or `Except`, and external parsing
or crypto routines (protobuf `Unmarshal`, the XOR stream cipher) are
taken as function parameters, since the properties verified here only
depend on how their results are dispatched on.
-/

namespace Meshtool

/-- Byte slices from the Go source; each element is a byte value. -/
abbrev Bytes := List Nat

/-- `meshtastic.User`, with the fields the source uses. -/
structure User where
  id : String
  longName : String
  shortName : String
  hwModel : Nat
  deriving DecidableEq

/-- `meshtastic.Position`, with the fields the source uses. -/
structure Position where
  latitudeI : Int
  longitudeI : Int
  altitude : Int
  time : Nat
  deriving DecidableEq

/-- `meshtastic.DeviceMetrics` (opaque to the core; one representative field). -/
structure DeviceMetrics where
  batteryLevel : Nat
  deriving DecidableEq

/-- `meshtastic.Telemetry`: `GetDeviceMetrics()` returns `none` when the
telemetry variant does not carry device metrics. -/
structure Telemetry where
  deviceMetrics : Option DeviceMetrics
  deriving DecidableEq

/-- `meshtastic.Routing` (opaque to the core; one representative field). -/
structure Routing where
  errorReason : Nat
  deriving DecidableEq

/-- `meshtastic.NodeInfo`. Absent protobuf submessages are `none`, matching
the Go zero value of pointer fields. -/
structure NodeInfo where
  num : Nat
  user : Option User := none
  position : Option Position := none
  deviceMetrics : Option DeviceMetrics := none
  lastHeard : Nat := 0
  deriving DecidableEq

/-- `meshtastic.PortNum`: the enum values the source dispatches on, plus a
catch-all for every other value. -/
inductive PortNum where
  | nodeinfoApp
  | textMessageApp
  | routingApp
  | positionApp
  | telemetryApp
  | adminApp
  | unknownApp (n : Nat)
  deriving DecidableEq

/-- `meshtastic.Data`. -/
structure Data where
  portnum : PortNum
  payload : Bytes
  requestId : Nat := 0
  deriving DecidableEq

/-- The payload variant of a `meshtastic.MeshPacket`: `Decoded`, `Encrypted`,
or anything else (a nil or unknown variant in Go). -/
inductive MeshPayload where
  | decoded (d : Data)
  | encrypted (ct : Bytes)
  | unset
  deriving DecidableEq

/-- `meshtastic.MeshPacket`. The Go fields `From` and `To` are named
`fromNode` and `toNode` because `from` is reserved in Lean. -/
structure MeshPacket where
  id : Nat
  fromNode : Nat
  toNode : Nat
  payloadVariant : MeshPayload := .unset
  deriving DecidableEq

/-- `meshtastic.ServiceEnvelope`: what crosses MQTT. -/
structure ServiceEnvelope where
  channelId : String
  gatewayId : String
  packet : MeshPacket
  deriving DecidableEq

/-- `meshtastic.ChannelSettings`. -/
structure ChannelSettings where
  name : String := ""
  psk : Bytes := []
  deriving DecidableEq

/-- `meshtastic.Channel_Role`. -/
inductive ChannelRole where
  | disabled
  | primaryRole
  | secondaryRole
  deriving DecidableEq

/-- `meshtastic.Channel`. -/
structure Channel where
  index : Nat
  settings : ChannelSettings
  role : ChannelRole
  deriving DecidableEq

/-- `meshtastic.MyNodeInfo`. -/
structure MyNodeInfo where
  myNodeNum : Nat
  rebootCount : Nat := 0
  minAppVersion : Nat := 0
  deriving DecidableEq

/-- `meshtastic.DeviceMetadata`. -/
structure DeviceMetadata where
  firmwareVersion : String
  deviceStateVersion : Nat
  canShutdown : Bool
  hasWifi : Bool
  hasBluetooth : Bool
  hwModel : Nat
  deriving DecidableEq

/-- `meshtastic.Config_DeviceConfig`, with the fields the source sets. -/
structure DeviceConfig where
  serialEnabled : Bool
  nodeInfoBroadcastSecs : Nat
  deriving DecidableEq

/-- `meshtastic.Config`: the source only ever builds the `Device` variant. -/
inductive ConfigMsg where
  | device (d : DeviceConfig)
  deriving DecidableEq

/-- `meshtastic.ModuleConfig` (opaque to the core). -/
structure ModuleConfig where
  tag : Nat
  deriving DecidableEq

/-- `meshtastic.HardwareModel_PRIVATE_HW` (enum value 255). -/
def hardwareModelPrivateHw : Nat := 255

/-- `meshtastic.FromRadio`: the payload variants the source produces or the
transport client dispatches on. -/
inductive FromRadio where
  | myInfo (m : MyNodeInfo)
  | metadata (d : DeviceMetadata)
  | nodeInfo (n : NodeInfo)
  | channel (c : Channel)
  | config (c : ConfigMsg)
  | moduleConfig (m : ModuleConfig)
  | configCompleteId (id : Nat)
  | logRecord (s : String)
  | mqttClientProxyMessage (b : Bytes)
  | queueStatus (q : Nat)
  | rebooted (b : Bool)
  | xmodemPacket (b : Bytes)
  | packet (p : MeshPacket)
  | unknownVariant (n : Nat)
  deriving DecidableEq

/-- `emulated.Config`: the radio configuration. Durations are in
nanoseconds, as in the Go `time.Duration`. -/
structure RadioConfig where
  nodeId : Nat
  longName : String
  shortName : String
  channels : List ChannelSettings
  broadcastNodeInfoIntervalNs : Nat := 0
  broadcastPositionIntervalNs : Nat := 0
  positionLatitudeI : Int := 0
  positionLongitudeI : Int := 0
  positionAltitude : Int := 0
  tcpListenAddr : String := ""
  deriving DecidableEq

/-- `emulated.MinAppVersion`. -/
def MinAppVersion : Nat := 30200

/-- One hexadecimal digit, lowercase. -/
def hexDigit (n : Nat) : Char :=
  if n < 10 then Char.ofNat (48 + n) else Char.ofNat (87 + n)

/-- A fixed-width lowercase hexadecimal rendering, most significant first. -/
def toHexFixed : Nat → Nat → List Char
  | 0, _ => []
  | k + 1, n => toHexFixed k (n / 16) ++ [hexDigit (n % 16)]

/-- Modelled from the spec: `meshtool.NodeID.String()` is not under `src/`;
the spec gives the canonical form as a leading `!` followed by 8 lowercase
hex digits of the 32-bit node id. -/
def nodeIdString (n : Nat) : String :=
  String.mk (Char.ofNat 33 :: toHexFixed 8 (n % 2 ^ 32))

/-! ## radio package: errors.go -/

/-- The error values `radio.ErrUnkownPayloadType` and `radio.ErrDecrypt`
(the first keeps the spelling of the source). -/
inductive RadioErr where
  | errUnkownPayloadType
  | errDecrypt
  deriving DecidableEq

/-- `radio.TryDecode`. The stream cipher `radio.XOR` and protobuf
`proto.Unmarshal` into `meshtastic.Data` are parameters: `xorDecrypt`
receives (ciphertext, key, packet id, packet source node) and returns
`none` on failure, and `unmarshalData` returns `none` on failure, matching
the Go call sites. The source branch guarded by `useOriginal` is the one
taken (`useOriginal = true`). -/
def TryDecode (xorDecrypt : Bytes → Bytes → Nat → Nat → Option Bytes)
    (unmarshalData : Bytes → Option Data)
    (packet : MeshPacket) (key : Bytes) : Except RadioErr Data :=
  match packet.payloadVariant with
  | .decoded d => .ok d
  | .encrypted ct =>
    match xorDecrypt ct key packet.id packet.fromNode with
    | none => .error .errDecrypt
    | some decrypted =>
      match unmarshalData decrypted with
      | none => .error .errDecrypt
      | some d => .ok d
  | .unset => .error .errUnkownPayloadType

/-- `radio.xorHash`: XOR-reduction of a byte slice. -/
def xorHash (p : Bytes) : Nat :=
  p.foldl (fun code b => code ^^^ b) 0

/-- The error returned by `radio.ChannelHash` on an empty key. -/
inductive ChannelHashErr where
  | emptyKey
  deriving DecidableEq

/-- `radio.ChannelHash`: XOR of the two byte-slice hashes, widened to u32. -/
def ChannelHash (channelName : Bytes) (channelKey : Bytes) :
    Except ChannelHashErr Nat :=
  if channelKey.length = 0 then .error .emptyKey
  else .ok (xorHash channelName ^^^ xorHash channelKey)

end Meshtool

namespace Meshtool

/-! ## NodeDB (emulated radio)

The radio `nodeDB` is a Go map `map[uint32]*meshtastic.NodeInfo`; here an
association list with unique keys standing in for it (the list order stands
for the unspecified map iteration order). -/

/-- Map lookup in the nodeDB. -/
def dbLookup (db : List (Nat × NodeInfo)) (k : Nat) : Option NodeInfo :=
  match db with
  | [] => none
  | (k1, v) :: rest => if k1 = k then some v else dbLookup rest k

/-- Map store in the nodeDB: replace in place, or append when absent. -/
def dbStore (db : List (Nat × NodeInfo)) (k : Nat) (v : NodeInfo) :
    List (Nat × NodeInfo) :=
  match db with
  | [] => [(k, v)]
  | (k1, v1) :: rest =>
    if k1 = k then (k, v) :: rest else (k1, v1) :: dbStore rest k v

/-- `Radio.updateNodeDB`: read-modify-write of one entry, creating it with
`Num = nodeID` when absent; `LastHeard` is set to the current time after the
mutator has run. `now` is the current unix time in seconds. -/
def updateNodeDB (db : List (Nat × NodeInfo)) (nodeID : Nat)
    (updateFunc : NodeInfo → NodeInfo) (now : Nat) : List (Nat × NodeInfo) :=
  dbStore db nodeID
    { updateFunc ((dbLookup db nodeID).getD { num := nodeID }) with
      lastHeard := now }

/-- `proto.Clone` on a `NodeInfo`: a field-by-field deep copy. In the value
semantics of the embedding a clone is equal to the original; the point of
the definition is that `getNodeDB` returns these fresh copies rather than
the stored entries themselves. -/
def cloneNodeInfo (n : NodeInfo) : NodeInfo :=
  { num := n.num, user := n.user, position := n.position,
    deviceMetrics := n.deviceMetrics, lastHeard := n.lastHeard }

/-- `Radio.getNodeDB`: the snapshot of the nodeDB, one clone per entry. -/
def getNodeDB (db : List (Nat × NodeInfo)) : List NodeInfo :=
  db.map fun kv => cloneNodeInfo kv.2

/-- The mutator passed to `updateNodeDB` for a received NodeInfo. -/
def setUser (user : User) (nodeInfo : NodeInfo) : NodeInfo :=
  { nodeInfo with user := some user }

/-- The mutator passed to `updateNodeDB` for a received Position. -/
def setPosition (positionPayload : Position) (nodeInfo : NodeInfo) : NodeInfo :=
  { nodeInfo with position := some positionPayload }

/-- The mutator passed to `updateNodeDB` for received Telemetry device
metrics. -/
def setDeviceMetrics (deviceMetrics : DeviceMetrics) (nodeInfo : NodeInfo) :
    NodeInfo :=
  { nodeInfo with deviceMetrics := some deviceMetrics }

/-- Well-formedness of the nodeDB model: keys are unique (it stands for a Go
map) and every entry records its own key in `num`. -/
def NodeDBWf (db : List (Nat × NodeInfo)) : Prop :=
  (db.map Prod.fst).Nodup ∧ ∀ kv ∈ db, (kv.2).num = kv.1

/-! ## Configuration handshake (emulated radio) -/

/-- `Radio.handleToRadioWantConfigID`: the ordered sequence of `FromRadio`
messages written to the stream session in response to `WantConfigId`, given
the current nodeDB. Each `conn.Write` appends one message; an early write
error truncates the sequence to a prefix. -/
def handleToRadioWantConfigID (cfg : RadioConfig) (db : List (Nat × NodeInfo))
    (wantConfigId : Nat) : List FromRadio :=
  [FromRadio.myInfo
      { myNodeNum := cfg.nodeId, rebootCount := 0, minAppVersion := MinAppVersion },
   FromRadio.metadata
      { firmwareVersion := "2.2.19-fake", deviceStateVersion := 22,
        canShutdown := true, hasWifi := true, hasBluetooth := true,
        hwModel := hardwareModelPrivateHw },
   FromRadio.nodeInfo
      { num := cfg.nodeId,
        user := some { id := nodeIdString cfg.nodeId, longName := cfg.longName,
                       shortName := cfg.shortName, hwModel := 0 } }]
  ++ (getNodeDB db).map (fun nodeInfo => FromRadio.nodeInfo nodeInfo)
  ++ [FromRadio.channel
        { index := 0, settings := { name := "", psk := [] }, role := .primaryRole },
      FromRadio.config (.device
        { serialEnabled := true,
          nodeInfoBroadcastSecs := cfg.broadcastNodeInfoIntervalNs / 1000000000 }),
      FromRadio.configCompleteId wantConfigId]

/-! ## Packet-ID counter

`Radio.packetID` is a `uint32` starting at the Go zero value 0.
`nextPacketID` increments it under the mutex and returns the new value;
`sendPacket` runs `r.packetID = r.nextPacketID()`, storing the returned
value back into the counter (a write that leaves the value the accessor
produced). -/

/-- The modulus of `uint32` arithmetic. -/
def uint32Mod : Nat := 2 ^ 32

/-- `Radio.nextPacketID`: increment the counter and return the new value.
The first component is the returned id, the second the counter afterwards. -/
def nextPacketID (packetID : Nat) : Nat × Nat :=
  ((packetID + 1) % uint32Mod, (packetID + 1) % uint32Mod)

/-- The effect of `Radio.sendPacket` on the counter: it calls
`nextPacketID` once and assigns the returned id back to `r.packetID`. -/
def sendPacketCounter (packetID : Nat) : Nat :=
  (nextPacketID packetID).1

/-- The counter value after `n` calls of `nextPacketID`, starting from the
Go zero value 0. -/
def counterAfter : Nat → Nat
  | 0 => 0
  | n + 1 => (nextPacketID (counterAfter n)).2

/-- The id returned by call number `n + 1` of `nextPacketID` (0-indexed). -/
def issuedPacketID (n : Nat) : Nat :=
  (nextPacketID (counterAfter n)).1

/-- `radio.DefaultKey`: the default channel PSK, base64 "1PG7OiApB1nwvP+rz05pAQ==". -/
def DefaultKey : Bytes :=
  [0xd4, 0xf1, 0xbb, 0x3a, 0x20, 0x29, 0x07, 0x59,
   0xf0, 0xbc, 0xff, 0xab, 0xcf, 0x4e, 0x69, 0x01]

/-! ## MQTT bridge (emulated radio) -/

/-- The external codec and crypto operations `tryHandleMQTTMessage` calls:
protobuf `proto.Unmarshal` for each message type and the `radio.XOR` stream
cipher, each returning `none` on failure. -/
structure MQTTParses where
  unmarshalEnvelope : Bytes → Option ServiceEnvelope
  unmarshalUser : Bytes → Option User
  unmarshalPosition : Bytes → Option Position
  unmarshalTelemetry : Bytes → Option Telemetry
  unmarshalRouting : Bytes → Option Routing
  xorDecrypt : Bytes → Bytes → Nat → Nat → Option Bytes
  unmarshalData : Bytes → Option Data

/-- The radio state the MQTT bridge touches: one outbound queue per
registered stream subscriber, and the nodeDB. -/
structure BridgeState where
  subs : List (List FromRadio)
  nodeDB : List (Nat × NodeInfo)
  deriving DecidableEq

/-- `Radio.dispatchMessageToFromRadio`: deliver one message to every
currently registered subscriber queue. -/
def dispatchMessageToFromRadio (subs : List (List FromRadio))
    (msg : FromRadio) : List (List FromRadio) :=
  subs.map fun queue => queue ++ [msg]

/-- `r.cfg.Channels.Settings[0]`: the primary channel is the first of the
configured channel list (the validated configuration guarantees the list is
non-empty; the default is never taken for a validated configuration). -/
def primaryChannel (cfg : RadioConfig) : ChannelSettings :=
  cfg.channels.headD {}

/-- The primary-channel portion of `Radio.tryHandleMQTTMessage` (everything
after the fan-out): stop unless the envelope names the primary channel,
`TryDecode` with the primary PSK, then dispatch on the portnum. Only the
nodeDB is touched; the second component is false when the Go code returns
an error. -/
def handlePrimaryChannel (P : MQTTParses) (cfg : RadioConfig) (now : Nat)
    (db : List (Nat × NodeInfo)) (env : ServiceEnvelope) :
    List (Nat × NodeInfo) × Bool :=
  if env.channelId ≠ (primaryChannel cfg).name then (db, true)
  else
    match TryDecode P.xorDecrypt P.unmarshalData env.packet
        (primaryChannel cfg).psk with
    | .error _ => (db, false)
    | .ok data =>
      match data.portnum with
      | .nodeinfoApp =>
        match P.unmarshalUser data.payload with
        | none => (db, false)
        | some user =>
          (updateNodeDB db env.packet.fromNode (setUser user) now, true)
      | .textMessageApp => (db, true)
      | .routingApp =>
        match P.unmarshalRouting data.payload with
        | none => (db, false)
        | some _ => (db, true)
      | .positionApp =>
        match P.unmarshalPosition data.payload with
        | none => (db, false)
        | some positionPayload =>
          (updateNodeDB db env.packet.fromNode (setPosition positionPayload) now,
            true)
      | .telemetryApp =>
        match P.unmarshalTelemetry data.payload with
        | none => (db, false)
        | some telemetryPayload =>
          match telemetryPayload.deviceMetrics with
          | none => (db, true)
          | some deviceMetrics =>
            (updateNodeDB db env.packet.fromNode
              (setDeviceMetrics deviceMetrics) now, true)
      | _ => (db, true)

/-- `Radio.tryHandleMQTTMessage`: unmarshal the `ServiceEnvelope` (failure
drops the message), fan the embedded packet out to every subscriber, then
process the primary channel. -/
def tryHandleMQTTMessage (P : MQTTParses) (cfg : RadioConfig) (now : Nat)
    (st : BridgeState) (payload : Bytes) : BridgeState × Bool :=
  match P.unmarshalEnvelope payload with
  | none => (st, false)
  | some env =>
    ({ subs := dispatchMessageToFromRadio st.subs (FromRadio.packet env.packet),
       nodeDB := (handlePrimaryChannel P cfg now st.nodeDB env).1 },
      (handlePrimaryChannel P cfg now st.nodeDB env).2)

/-! ## Admin request handling on a stream session -/

/-- `meshtastic.AdminMessage` payload variants the source touches. -/
inductive AdminVariant where
  | getChannelRequest (index : Nat)
  | getChannelResponse (channel : Channel)
  | otherAdmin (n : Nat)
  deriving DecidableEq

/-- `meshtastic.AdminMessage`. -/
structure AdminMessage where
  payloadVariant : AdminVariant
  deriving DecidableEq

/-- The channel the synthesized GetChannelResponse carries: index 0, empty
psk (nil settings in Go, all fields zero), role DISABLED. -/
def disabledChannel0 : Channel :=
  { index := 0, settings := { name := "", psk := [] }, role := .disabled }

/-- The GetChannelResponse the source synthesizes (marked in the source as
a hack so the Python CLI believes it is connected). -/
def getChannelResponseHack : AdminMessage :=
  { payloadVariant := .getChannelResponse disabledChannel0 }

/-- The `ToRadio_Packet` branch of the `Radio.handleConn` read loop. Given
the incoming mesh packet and the current packet-id counter it returns the
session error (an unmarshallable admin payload ends the read loop) or an
optional reply plus the new counter value. `unmarshalAdmin` and
`marshalAdmin` stand for the protobuf codec on `AdminMessage`. -/
def handleToRadioPacket (unmarshalAdmin : Bytes → Option AdminMessage)
    (marshalAdmin : AdminMessage → Bytes) (cfg : RadioConfig)
    (packetID : Nat) (p : MeshPacket) :
    Except Unit (Option FromRadio × Nat) :=
  match p.payloadVariant with
  | .decoded decoded =>
    if decoded.portnum = .adminApp then
      match unmarshalAdmin decoded.payload with
      | none => .error ()
      | some admin =>
        match admin.payloadVariant with
        | .getChannelRequest _ =>
          .ok (some (FromRadio.packet
            { id := (nextPacketID packetID).1
              fromNode := cfg.nodeId
              toNode := cfg.nodeId
              payloadVariant := .decoded
                { portnum := .adminApp
                  payload := marshalAdmin getChannelResponseHack
                  requestId := p.id } }), (nextPacketID packetID).2)
        | _ => .ok (none, packetID)
    else .ok (none, packetID)
  | _ => .ok (none, packetID)

/-! ## Run and its subtasks (emulated radio)

`Radio.Run` spawns one errgroup goroutine per configured feature and then
blocks in `eg.Wait()` until every spawned goroutine has returned. The two
ticker goroutines return (with nil) exactly when the group context is
cancelled. `listenTCP` never consults the context: its accept loop
`continue`s on every error and never returns after a successful `Listen`.
`runReturns` models whether `eg.Wait()` ever returns, as a function of the
configuration and of whether the cancellation has fired. -/

inductive RunSubtask where
  | nodeInfoBeacon
  | positionBeacon
  | tcpListener
  deriving DecidableEq

/-- The goroutines `Run` spawns for a given configuration. -/
def runSubtasks (cfg : RadioConfig) : List RunSubtask :=
  (if 0 < cfg.broadcastNodeInfoIntervalNs then [RunSubtask.nodeInfoBeacon] else [])
  ++ (if 0 < cfg.broadcastPositionIntervalNs then [RunSubtask.positionBeacon] else [])
  ++ (if cfg.tcpListenAddr ≠ "" then [RunSubtask.tcpListener] else [])

/-- Whether a spawned subtask ever terminates, given whether the
cancellation context has fired. -/
def subtaskTerminates : RunSubtask → Bool → Bool
  | .nodeInfoBeacon, cancelled => cancelled
  | .positionBeacon, cancelled => cancelled
  | .tcpListener, _ => false

/-- Whether `Run` (once MQTT connect succeeded) ever returns: `eg.Wait()`
returns exactly when every spawned goroutine has terminated — vacuously
and immediately when none was spawned. -/
def runReturns (cfg : RadioConfig) (cancelled : Bool) : Bool :=
  (runSubtasks cfg).all fun t => subtaskTerminates t cancelled

/-- A configuration with both broadcast intervals zero and no TCP listen
address. -/
def cfgZeroTasks : RadioConfig :=
  { nodeId := 0x12345678, longName := "EXAMPLE", shortName := "EMPL",
    channels := [{ name := "LongFast", psk := DefaultKey }] }

/-- The same configuration with the TCP listener enabled. -/
def cfgWithTCP : RadioConfig :=
  { cfgZeroTasks with tcpListenAddr := "127.0.0.1:4403" }

/-! ## Go channel-send semantics (fan-out backpressure)

`handleConn` registers `ch := make(chan *meshtastic.FromRadio)` — an
unbuffered channel — as the subscriber queue, and
`dispatchMessageToFromRadio` delivers with a plain blocking send `ch <- msg`
under the radio mutex. A send on a Go channel completes without blocking
exactly when a receiver is currently waiting or the buffer has room. -/

/-- The observable state of one subscriber channel at the moment of a send. -/
structure GoChan where
  capacity : Nat
  buffered : Nat
  receiverWaiting : Bool
  deriving DecidableEq

/-- Whether a send on the channel completes without blocking the sender. -/
def chanSendCompletes (ch : GoChan) : Bool :=
  ch.receiverWaiting || decide (ch.buffered < ch.capacity)

/-- The capacity of the subscriber channel `handleConn` creates:
`make(chan *meshtastic.FromRadio)` is unbuffered. -/
def handleConnSubscriberChanCap : Nat := 0

/-! ## Transport client connect loop -/

/-- `transport.State`: what the client read loop accumulates. -/
structure ClientState where
  complete : Bool := false
  configID : Nat := 0
  nodeInfo : Option MyNodeInfo := none
  deviceMetadata : Option DeviceMetadata := none
  nodes : List NodeInfo := []
  channels : List Channel := []
  configs : List ConfigMsg := []
  modules : List ModuleConfig := []
  deriving DecidableEq

/-- The argument the read loop hands to `handlers.HandleMessage` when it
dispatches (`nilArg` for the default switch case, whose `variant` stays
nil). -/
inductive HandlerArg where
  | myInfoArg (m : MyNodeInfo)
  | metadataArg (d : DeviceMetadata)
  | nodeArg (n : NodeInfo)
  | channelArg (c : Channel)
  | configArg (c : ConfigMsg)
  | moduleArg (m : ModuleConfig)
  | logRecordArg (s : String)
  | mqttProxyArg (b : Bytes)
  | queueStatusArg (q : Nat)
  | xmodemArg (b : Bytes)
  | packetArg (p : MeshPacket)
  | nilArg
  deriving DecidableEq

/-- One iteration of the read loop in `Client.Connect`: the switch updates
`State`; `ConfigCompleteId` and `Rebooted` continue without dispatching;
every other message is handed to the handler registry only when
`State.Complete()` holds at the check after the switch (the switch leaves
`complete` unchanged for all non-`ConfigCompleteId` messages). -/
def connectStep (s : ClientState) (msg : FromRadio) :
    ClientState × Option HandlerArg :=
  match msg with
  | .myInfo m =>
    ({ s with nodeInfo := some m },
      if s.complete then some (.myInfoArg m) else none)
  | .metadata d =>
    ({ s with deviceMetadata := some d },
      if s.complete then some (.metadataArg d) else none)
  | .nodeInfo n =>
    ({ s with nodes := s.nodes ++ [n] },
      if s.complete then some (.nodeArg n) else none)
  | .channel c =>
    ({ s with channels := s.channels ++ [c] },
      if s.complete then some (.channelArg c) else none)
  | .config c =>
    ({ s with configs := s.configs ++ [c] },
      if s.complete then some (.configArg c) else none)
  | .moduleConfig m =>
    ({ s with modules := s.modules ++ [m] },
      if s.complete then some (.moduleArg m) else none)
  | .configCompleteId _ => ({ s with complete := true }, none)
  | .logRecord str => (s, if s.complete then some (.logRecordArg str) else none)
  | .mqttClientProxyMessage b =>
    (s, if s.complete then some (.mqttProxyArg b) else none)
  | .queueStatus q => (s, if s.complete then some (.queueStatusArg q) else none)
  | .rebooted _ => (s, none)
  | .xmodemPacket b => (s, if s.complete then some (.xmodemArg b) else none)
  | .packet p => (s, if s.complete then some (.packetArg p) else none)
  | .unknownVariant _ => (s, if s.complete then some .nilArg else none)

/-- The read loop over a list of received messages: the final state and the
handler dispatches in order. -/
def connectRun : ClientState → List FromRadio → ClientState × List HandlerArg
  | s, [] => (s, [])
  | s, m :: rest =>
    ((connectRun (connectStep s m).1 rest).1,
      (connectStep s m).2.toList ++ (connectRun (connectStep s m).1 rest).2)

/-- Whether a `FromRadio` message is a `ConfigCompleteId`. -/
def isConfigCompleteMsg : FromRadio → Bool
  | .configCompleteId _ => true
  | _ => false

/-! ## Concrete instances used by witnesses -/

def u0 : User := { id := "!00000007", longName := "N", shortName := "N7", hwModel := 0 }

def data0 : Data := { portnum := .nodeinfoApp, payload := [3], requestId := 0 }

def pkt0 : MeshPacket := { id := 9, fromNode := 7, toNode := 0, payloadVariant := .decoded data0 }

def env0 : ServiceEnvelope := { channelId := "LongFast", gatewayId := "!00000042", packet := pkt0 }

/-- A concrete codec for the bridge witness. -/
def P0 : MQTTParses :=
  { unmarshalEnvelope := fun _ => some env0
    unmarshalUser := fun _ => some u0
    unmarshalPosition := fun _ => none
    unmarshalTelemetry := fun _ => none
    unmarshalRouting := fun _ => none
    xorDecrypt := fun _ _ _ _ => none
    unmarshalData := fun _ => none }

def cfg0 : RadioConfig :=
  { nodeId := 0x42, longName := "N", shortName := "N7",
    channels := [{ name := "LongFast", psk := DefaultKey }] }

def st0 : BridgeState := { subs := [[], []], nodeDB := [] }

/-- A concrete admin codec for the admin-reply witness: `[1]` decodes to a
GetChannelRequest and the marshalled GetChannelResponse round-trips. -/
def unmarshalAdmin0 : Bytes → Option AdminMessage := fun b =>
  if b = [0] then some getChannelResponseHack
  else if b = [1] then some { payloadVariant := .getChannelRequest 0 }
  else none

def marshalAdmin0 : AdminMessage → Bytes := fun _ => [0]

def adminPkt0 : MeshPacket :=
  { id := 77, fromNode := 1, toNode := 2,
    payloadVariant := .decoded { portnum := .adminApp, payload := [1], requestId := 0 } }

/-! ## Theorems for claims C5 and C6 -/

/-- Claim C5: `TryDecode(packet, key)` returns the embedded `Data` unchanged
when the payload variant is `Decoded`; when it is `Encrypted` it decrypts
with (key, packet.id, packet.from) and deserializes the result as `Data`,
returning `ErrDecrypt` when decryption or deserialization fails; any other
payload variant yields `ErrUnkownPayloadType`. Being a pure function of the
packet, it never modifies it and never fails for any other reason. -/
theorem tryDecode_cases
    (xorDecrypt : Bytes → Bytes → Nat → Nat → Option Bytes)
    (unmarshalData : Bytes → Option Data)
    (packet : MeshPacket) (key : Bytes) :
    (∀ d, packet.payloadVariant = .decoded d →
      TryDecode xorDecrypt unmarshalData packet key = .ok d) ∧
    (∀ ct plain d, packet.payloadVariant = .encrypted ct →
      xorDecrypt ct key packet.id packet.fromNode = some plain →
      unmarshalData plain = some d →
      TryDecode xorDecrypt unmarshalData packet key = .ok d) ∧
    (∀ ct, packet.payloadVariant = .encrypted ct →
      xorDecrypt ct key packet.id packet.fromNode = none →
      TryDecode xorDecrypt unmarshalData packet key = .error .errDecrypt) ∧
    (∀ ct plain, packet.payloadVariant = .encrypted ct →
      xorDecrypt ct key packet.id packet.fromNode = some plain →
      unmarshalData plain = none →
      TryDecode xorDecrypt unmarshalData packet key = .error .errDecrypt) ∧
    (packet.payloadVariant = .unset →
      TryDecode xorDecrypt unmarshalData packet key =
        .error .errUnkownPayloadType) := by
  refine ⟨?_, ?_, ?_, ?_, ?_⟩
  · intro d h
    simp [TryDecode, h]
  · intro ct plain d h hx hu
    simp [TryDecode, h, hx, hu]
  · intro ct h hx
    simp [TryDecode, h, hx]
  · intro ct plain h hx hu
    simp [TryDecode, h, hx, hu]
  · intro h
    simp [TryDecode, h]

/-- Witness for C5: concrete evaluations discharging each case. -/
theorem tryDecode_cases_witness :
    TryDecode (fun ct _ _ _ => some ct) (fun b => if b = [2] then some ⟨.textMessageApp, [9], 0⟩ else none)
      { id := 1, fromNode := 2, toNode := 3, payloadVariant := .encrypted [2] } [7] =
      .ok ⟨.textMessageApp, [9], 0⟩ ∧
    TryDecode (fun _ _ _ _ => none) (fun _ => none)
      { id := 1, fromNode := 2, toNode := 3, payloadVariant := .unset } [7] =
      .error .errUnkownPayloadType := by
  constructor
  · exact (tryDecode_cases (fun ct _ _ _ => some ct)
      (fun b => if b = [2] then some ⟨.textMessageApp, [9], 0⟩ else none)
      { id := 1, fromNode := 2, toNode := 3, payloadVariant := .encrypted [2] }
      [7]).2.1 [2] [2] ⟨.textMessageApp, [9], 0⟩ rfl rfl (by decide)
  · exact (tryDecode_cases (fun _ _ _ _ => none) (fun _ => none)
      { id := 1, fromNode := 2, toNode := 3, payloadVariant := .unset }
      [7]).2.2.2.2 rfl

/-- XOR-reduction of bytes stays below 256. -/
theorem xorHash_lt (p : Bytes) (h : ∀ b ∈ p, b < 256) : xorHash p < 256 := by
  suffices hgen : ∀ (l : Bytes) (acc : Nat), (∀ b ∈ l, b < 256) → acc < 256 →
      l.foldl (fun code b => code ^^^ b) acc < 256 by
    exact hgen p 0 h (by norm_num)
  intro l
  induction l with
  | nil => intro acc _ hacc; simpa using hacc
  | cons x xs ih =>
    intro acc hl hacc
    simp only [List.foldl_cons]
    refine ih (acc ^^^ x) (fun b hb => hl b (List.mem_cons_of_mem x hb)) ?_
    have hx : x < 256 := hl x (List.mem_cons_self x xs)
    have : acc ^^^ x < 2 ^ 8 := Nat.xor_lt_two_pow (by simpa using hacc) (by simpa using hx)
    simpa using this

/-- Claim C6: for every channel name and non-empty PSK, `ChannelHash`
returns the XOR-reduction of the name bytes XORed with the XOR-reduction of
the PSK bytes; the returned value fits in 8 bits; an empty PSK yields the
empty-key error. -/
theorem channelHash_spec (channelName channelKey : Bytes)
    (hname : ∀ b ∈ channelName, b < 256) (hkey : ∀ b ∈ channelKey, b < 256) :
    (channelKey ≠ [] →
      ChannelHash channelName channelKey =
        .ok (xorHash channelName ^^^ xorHash channelKey) ∧
      ∀ v, ChannelHash channelName channelKey = .ok v → v ≤ 255) ∧
    (channelKey = [] →
      ChannelHash channelName channelKey = .error .emptyKey) := by
  constructor
  · intro hne
    have hlen : channelKey.length ≠ 0 := by
      simpa [List.length_eq_zero] using hne
    constructor
    · simp [ChannelHash, hlen]
    · intro v hv
      simp only [ChannelHash, hlen, if_false, Except.ok.injEq] at hv
      have hx : xorHash channelName ^^^ xorHash channelKey < 256 := by
        have h1 : xorHash channelName < 2 ^ 8 := by
          simpa using xorHash_lt channelName hname
        have h2 : xorHash channelKey < 2 ^ 8 := by
          simpa using xorHash_lt channelKey hkey
        simpa using Nat.xor_lt_two_pow h1 h2
      omega
  · intro he
    simp [ChannelHash, he]

/-- Witness for C6: the hash of a concrete name and the default PSK. -/
theorem channelHash_spec_witness :
    ChannelHash [76, 111] [0xd4, 0xf1] = .ok ((76 ^^^ 111) ^^^ (0xd4 ^^^ 0xf1)) ∧
    ChannelHash [76, 111] [] = .error .emptyKey := by
  constructor
  · have h := (channelHash_spec [76, 111] [0xd4, 0xf1]
      (by decide) (by decide)).1 (by decide)
    have h1 := h.1
    simpa [xorHash] using h1
  · exact (channelHash_spec [76, 111] [] (by decide) (by decide)).2 rfl

/-! ## NodeDB lemmas -/

theorem mem_dbStore_keys (db : List (Nat × NodeInfo)) (k a : Nat) (v : NodeInfo) :
    a ∈ (dbStore db k v).map Prod.fst ↔ a ∈ db.map Prod.fst ∨ a = k := by
  induction db with
  | nil => simp [dbStore]
  | cons kv rest ih =>
    obtain ⟨k1, v1⟩ := kv
    by_cases h : k1 = k
    · subst h
      simp [dbStore]
      tauto
    · simp [dbStore, h, ih]
      tauto

theorem dbStore_nodup (db : List (Nat × NodeInfo)) (k : Nat) (v : NodeInfo)
    (h : (db.map Prod.fst).Nodup) : ((dbStore db k v).map Prod.fst).Nodup := by
  induction db with
  | nil => simp [dbStore]
  | cons kv rest ih =>
    obtain ⟨k1, v1⟩ := kv
    simp only [List.map_cons, List.nodup_cons] at h
    by_cases hk : k1 = k
    · subst hk
      have hstep : dbStore ((k1, v1) :: rest) k1 v = (k1, v) :: rest := by
        simp [dbStore]
      rw [hstep, List.map_cons, List.nodup_cons]
      exact ⟨h.1, h.2⟩
    · have hstep : dbStore ((k1, v1) :: rest) k v = (k1, v1) :: dbStore rest k v := by
        simp [dbStore, hk]
      rw [hstep, List.map_cons, List.nodup_cons]
      refine ⟨?_, ih h.2⟩
      rw [mem_dbStore_keys]
      push_neg
      exact ⟨h.1, hk⟩

theorem dbStore_num_inv (db : List (Nat × NodeInfo)) (k : Nat) (v : NodeInfo)
    (hnum : v.num = k) (h : ∀ kv ∈ db, (kv.2).num = kv.1) :
    ∀ kv ∈ dbStore db k v, (kv.2).num = kv.1 := by
  induction db with
  | nil =>
    intro kv hkv
    simp only [dbStore, List.mem_singleton] at hkv
    subst hkv
    simpa using hnum
  | cons kv1 rest ih =>
    obtain ⟨k1, v1⟩ := kv1
    intro kv hkv
    by_cases hk : k1 = k
    · subst hk
      have hstep : dbStore ((k1, v1) :: rest) k1 v = (k1, v) :: rest := by
        simp [dbStore]
      rw [hstep] at hkv
      rcases List.mem_cons.mp hkv with h1 | h1
      · subst h1; simpa using hnum
      · exact h kv (List.mem_cons_of_mem _ h1)
    · have hstep : dbStore ((k1, v1) :: rest) k v = (k1, v1) :: dbStore rest k v := by
        simp [dbStore, hk]
      rw [hstep] at hkv
      rcases List.mem_cons.mp hkv with h1 | h1
      · subst h1; exact h (k1, v1) (List.mem_cons_self _ _)
      · exact ih (fun kv2 hkv2 => h kv2 (List.mem_cons_of_mem _ hkv2)) kv h1

theorem dbStore_wf (db : List (Nat × NodeInfo)) (k : Nat) (v : NodeInfo)
    (hwf : NodeDBWf db) (hnum : v.num = k) : NodeDBWf (dbStore db k v) :=
  ⟨dbStore_nodup db k v hwf.1, dbStore_num_inv db k v hnum hwf.2⟩

theorem dbLookup_dbStore_self (db : List (Nat × NodeInfo)) (k : Nat)
    (v : NodeInfo) : dbLookup (dbStore db k v) k = some v := by
  induction db with
  | nil => simp [dbStore, dbLookup]
  | cons kv rest ih =>
    obtain ⟨k1, v1⟩ := kv
    by_cases hk : k1 = k
    · subst hk
      simp [dbStore, dbLookup]
    · simp [dbStore, dbLookup, hk, ih]

theorem dbLookup_mem (db : List (Nat × NodeInfo)) (k : Nat) (v : NodeInfo)
    (h : dbLookup db k = some v) : (k, v) ∈ db := by
  induction db with
  | nil => simp [dbLookup] at h
  | cons kv rest ih =>
    obtain ⟨k1, v1⟩ := kv
    by_cases hk : k1 = k
    · subst hk
      simp [dbLookup] at h
      subst h
      exact List.mem_cons_self _ _
    · simp only [dbLookup, if_neg hk] at h
      exact List.mem_cons_of_mem _ (ih h)

theorem filter_num_nil (db : List (Nat × NodeInfo)) (k : Nat) :
    k ∉ db.map Prod.fst → (∀ kv ∈ db, (kv.2).num = kv.1) →
    (db.map Prod.snd).filter (fun e => e.num == k) = [] := by
  induction db with
  | nil => intro _ _; simp
  | cons kv rest ih =>
    obtain ⟨k1, v1⟩ := kv
    intro hk hnum
    simp only [List.map_cons, List.mem_cons] at hk
    push_neg at hk
    have hv1 : v1.num = k1 := hnum (k1, v1) (List.mem_cons_self _ _)
    rw [List.map_cons, List.filter_cons_of_neg]
    · exact ih hk.2 (fun kv h => hnum kv (List.mem_cons_of_mem _ h))
    · simp only [hv1, beq_iff_eq]
      exact fun h => hk.1 h.symm

theorem filter_dbStore (db : List (Nat × NodeInfo)) (k : Nat) (v : NodeInfo)
    (hnum : v.num = k) :
    (db.map Prod.fst).Nodup → (∀ kv ∈ db, (kv.2).num = kv.1) →
    ((dbStore db k v).map Prod.snd).filter (fun e => e.num == k) = [v] := by
  induction db with
  | nil => intro _ _; simp [dbStore, hnum]
  | cons kv rest ih =>
    obtain ⟨k1, v1⟩ := kv
    intro hnd hinv
    rw [List.map_cons, List.nodup_cons] at hnd
    by_cases hk : k1 = k
    · subst hk
      have hstep : dbStore ((k1, v1) :: rest) k1 v = (k1, v) :: rest := by
        simp [dbStore]
      rw [hstep, List.map_cons, List.filter_cons_of_pos (by simp [hnum])]
      rw [filter_num_nil rest k1 hnd.1
        (fun kv h => hinv kv (List.mem_cons_of_mem _ h))]
    · have hv1 : v1.num = k1 := hinv (k1, v1) (List.mem_cons_self _ _)
      have hstep : dbStore ((k1, v1) :: rest) k v = (k1, v1) :: dbStore rest k v := by
        simp [dbStore, hk]
      rw [hstep, List.map_cons, List.filter_cons_of_neg (by simp [hv1, hk])]
      exact ih hnd.2 (fun kv h => hinv kv (List.mem_cons_of_mem _ h))

theorem updateNodeDB_of_lookup (db : List (Nat × NodeInfo)) (k : Nat)
    (f : NodeInfo → NodeInfo) (t : Nat) (e : NodeInfo)
    (h : dbLookup db k = some e) :
    updateNodeDB db k f t = dbStore db k { f e with lastHeard := t } := by
  unfold updateNodeDB
  rw [h]
  rfl

theorem cloneNodeInfo_eq (x : NodeInfo) : cloneNodeInfo x = x := by
  cases x
  rfl

theorem getNodeDB_eq_map_snd (db : List (Nat × NodeInfo)) :
    getNodeDB db = db.map Prod.snd := by
  unfold getNodeDB
  simp [cloneNodeInfo_eq]

/-! ## Theorems for claims C1 and C7 -/

/-- Claim C1: in response to `WantConfigId(req_id)` the radio writes, in this
exact order: MyInfo with the configured node number and min app version
30200; Metadata with the fake firmware identity; a NodeInfo for the radio
itself built from the configuration; one NodeInfo per entry of the current
NodeDB snapshot; one Channel with index 0, empty psk and role PRIMARY; one
Config.Device with serial enabled and the configured node-info broadcast
interval in whole seconds; and finally ConfigCompleteId carrying req_id. -/
theorem wantConfig_handshake (cfg : RadioConfig) (db : List (Nat × NodeInfo))
    (reqId : Nat) :
    handleToRadioWantConfigID cfg db reqId =
      [FromRadio.myInfo
          { myNodeNum := cfg.nodeId, rebootCount := 0, minAppVersion := 30200 },
       FromRadio.metadata
          { firmwareVersion := "2.2.19-fake", deviceStateVersion := 22,
            canShutdown := true, hasWifi := true, hasBluetooth := true,
            hwModel := hardwareModelPrivateHw },
       FromRadio.nodeInfo
          { num := cfg.nodeId,
            user := some { id := nodeIdString cfg.nodeId,
                           longName := cfg.longName,
                           shortName := cfg.shortName, hwModel := 0 },
            position := none, deviceMetrics := none, lastHeard := 0 }]
      ++ (getNodeDB db).map FromRadio.nodeInfo
      ++ [FromRadio.channel
            { index := 0, settings := { name := "", psk := [] },
              role := .primaryRole },
          FromRadio.config (.device
            { serialEnabled := true,
              nodeInfoBroadcastSecs :=
                cfg.broadcastNodeInfoIntervalNs / 1000000000 }),
          FromRadio.configCompleteId reqId] := rfl

/-- Claim C7: `updateNodeDB` creates the entry with `num = nodeID` when it
is absent, applies the mutator and then stamps `lastHeard`; after updating
node `n` with a user and then with a position, the snapshot holds exactly
one entry for `n`, carrying both the user and the position, with
`lastHeard` equal to the time of the second update; and the snapshot is
built from field-by-field clones of the stored entries (in the value
semantics of the embedding a clone equals the original, and the store,
being a pure value, is unaffected by anything done to the copies). -/
theorem nodeDB_update_snapshot (db : List (Nat × NodeInfo)) (n : Nat)
    (u : User) (pos : Position) (t1 t2 : Nat) (hwf : NodeDBWf db) :
    (∀ f t, dbLookup (updateNodeDB db n f t) n =
        some { f ((dbLookup db n).getD { num := n }) with lastHeard := t }) ∧
    (getNodeDB (updateNodeDB (updateNodeDB db n (setUser u) t1) n
        (setPosition pos) t2)).filter (fun x => x.num == n) =
      [{ num := n, user := some u, position := some pos,
         deviceMetrics := ((dbLookup db n).getD { num := n }).deviceMetrics,
         lastHeard := t2 }] ∧
    (∀ x, cloneNodeInfo x = x) := by
  have hbasenum : ((dbLookup db n).getD { num := n }).num = n := by
    cases hdb : dbLookup db n with
    | none => simp
    | some e =>
      have := hwf.2 (n, e) (dbLookup_mem db n e hdb)
      simpa using this
  refine ⟨?_, ?_, cloneNodeInfo_eq⟩
  · intro f t
    exact dbLookup_dbStore_self db n _
  · have hwf1 : NodeDBWf (updateNodeDB db n (setUser u) t1) :=
      dbStore_wf db n _ hwf (by simp [setUser, hbasenum])
    have hlook1 : dbLookup (updateNodeDB db n (setUser u) t1) n =
        some { setUser u ((dbLookup db n).getD { num := n }) with
          lastHeard := t1 } :=
      dbLookup_dbStore_self db n _
    rw [updateNodeDB_of_lookup _ n (setPosition pos) t2 _ hlook1,
      getNodeDB_eq_map_snd]
    rw [filter_dbStore (updateNodeDB db n (setUser u) t1) n _
      (by simp [setPosition, setUser, hbasenum]) hwf1.1 hwf1.2]
    simp [setPosition, setUser, hbasenum]

theorem counterAfter_eq (n : Nat) : counterAfter n = n % uint32Mod := by
  induction n with
  | zero => simp [counterAfter]
  | succ m ih =>
    show (nextPacketID (counterAfter m)).2 = (m + 1) % uint32Mod
    rw [ih]
    show (m % uint32Mod + 1) % uint32Mod = (m + 1) % uint32Mod
    conv_rhs => rw [Nat.add_mod]
    simp [uint32Mod]

theorem issuedPacketID_eq (n : Nat) :
    issuedPacketID n = (n + 1) % uint32Mod := by
  show (nextPacketID (counterAfter n)).1 = (n + 1) % uint32Mod
  rw [counterAfter_eq]
  show (n % uint32Mod + 1) % uint32Mod = (n + 1) % uint32Mod
  conv_rhs => rw [Nat.add_mod]
  simp [uint32Mod]

/-- Counterexample for C4 as stated: the `uint32` counter wraps, so the
id issued by call number 2^32 is 0 — neither positive nor greater than the
id issued by the call before it (which is 2^32 - 1). -/
theorem issuedPacketID_wraps :
    issuedPacketID 4294967295 = 0 ∧
    issuedPacketID 4294967294 = 4294967295 ∧
    ¬ 0 < issuedPacketID 4294967295 := by
  have h1 : issuedPacketID 4294967295 = 0 := by
    rw [issuedPacketID_eq]
    norm_num [uint32Mod]
  have h2 : issuedPacketID 4294967294 = 4294967295 := by
    rw [issuedPacketID_eq]
    norm_num [uint32Mod]
  exact ⟨h1, h2, by rw [h1]; exact lt_irrefl 0⟩

/-- Claim C4 as amended: packet ids are strictly positive and strictly
monotone over the first 2^32 - 1 calls of the accessor (the counter wraps
to 0 modulo 2^32 afterwards), and each beacon emission (`sendPacket`)
increments the counter exactly once: the write-back
`r.packetID = r.nextPacketID()` stores the value the accessor already left
in the counter, so the counter ends equal to the single acquired id. -/
theorem packetID_monotone_amended (m n : Nat) (hmn : m < n)
    (hn : n + 1 < uint32Mod) :
    (0 < issuedPacketID m ∧ issuedPacketID m < issuedPacketID n) ∧
    (∀ s, sendPacketCounter s = (nextPacketID s).2 ∧
      sendPacketCounter s = (s + 1) % uint32Mod) := by
  have hm : m + 1 < uint32Mod := by omega
  have hem : issuedPacketID m = m + 1 := by
    rw [issuedPacketID_eq, Nat.mod_eq_of_lt hm]
  have hen : issuedPacketID n = n + 1 := by
    rw [issuedPacketID_eq, Nat.mod_eq_of_lt hn]
  refine ⟨⟨?_, ?_⟩, ?_⟩
  · omega
  · omega
  · intro s
    exact ⟨rfl, rfl⟩

/-- Witness for the amended C4 at concrete call indices. -/
theorem packetID_monotone_amended_witness :
    (0 < issuedPacketID 0 ∧ issuedPacketID 0 < issuedPacketID 5) ∧
    (sendPacketCounter 7 = (nextPacketID 7).2 ∧
      sendPacketCounter 7 = (7 + 1) % uint32Mod) :=
  ⟨(packetID_monotone_amended 0 5 (by norm_num)
      (by norm_num [uint32Mod])).1,
   (packetID_monotone_amended 0 5 (by norm_num)
      (by norm_num [uint32Mod])).2 7⟩

/-- Witness for C7: both updates on an initially empty nodeDB. -/
theorem nodeDB_update_snapshot_witness :
    (getNodeDB (updateNodeDB (updateNodeDB [] 5
        (setUser { id := "!00000005", longName := "L", shortName := "S", hwModel := 0 }) 10) 5
        (setPosition { latitudeI := 1, longitudeI := 2, altitude := 3, time := 4 }) 11)).filter
      (fun x => x.num == 5) =
      [{ num := 5,
         user := some { id := "!00000005", longName := "L", shortName := "S", hwModel := 0 },
         position := some { latitudeI := 1, longitudeI := 2, altitude := 3, time := 4 },
         deviceMetrics := none, lastHeard := 11 }] := by
  have h := (nodeDB_update_snapshot [] 5
    { id := "!00000005", longName := "L", shortName := "S", hwModel := 0 }
    { latitudeI := 1, longitudeI := 2, altitude := 3, time := 4 } 10 11
    ⟨by simp, by simp⟩).2.1
  simpa [dbLookup] using h

/-! ## Theorem for claim C2 -/

/-- Claim C2: on an MQTT message whose payload unmarshals as a
ServiceEnvelope, the bridge first fans the embedded MeshPacket out to every
registered subscriber regardless of the envelope channel; the nodeDB is
untouched when the envelope names a non-primary channel or when TryDecode
with the primary PSK fails; on success, NodeInfo updates the entry for the
packet source with the parsed user, Position its position, Telemetry with
device metrics its device metrics, and every other portnum leaves the
nodeDB unchanged; a payload that does not unmarshal is dropped entirely. -/
theorem mqtt_bridge_dispatch (P : MQTTParses) (cfg : RadioConfig) (now : Nat)
    (st : BridgeState) (payload : Bytes) :
    (P.unmarshalEnvelope payload = none →
      tryHandleMQTTMessage P cfg now st payload = (st, false)) ∧
    (∀ env, P.unmarshalEnvelope payload = some env →
      (tryHandleMQTTMessage P cfg now st payload).1.subs =
        dispatchMessageToFromRadio st.subs (FromRadio.packet env.packet)) ∧
    (∀ env, P.unmarshalEnvelope payload = some env →
      env.channelId ≠ (primaryChannel cfg).name →
      (tryHandleMQTTMessage P cfg now st payload).1.nodeDB = st.nodeDB) ∧
    (∀ env e, P.unmarshalEnvelope payload = some env →
      TryDecode P.xorDecrypt P.unmarshalData env.packet
        (primaryChannel cfg).psk = .error e →
      (tryHandleMQTTMessage P cfg now st payload).1.nodeDB = st.nodeDB) ∧
    (∀ env data user, P.unmarshalEnvelope payload = some env →
      env.channelId = (primaryChannel cfg).name →
      TryDecode P.xorDecrypt P.unmarshalData env.packet
        (primaryChannel cfg).psk = .ok data →
      data.portnum = .nodeinfoApp →
      P.unmarshalUser data.payload = some user →
      (tryHandleMQTTMessage P cfg now st payload).1.nodeDB =
        updateNodeDB st.nodeDB env.packet.fromNode (setUser user) now) ∧
    (∀ env data positionPayload, P.unmarshalEnvelope payload = some env →
      env.channelId = (primaryChannel cfg).name →
      TryDecode P.xorDecrypt P.unmarshalData env.packet
        (primaryChannel cfg).psk = .ok data →
      data.portnum = .positionApp →
      P.unmarshalPosition data.payload = some positionPayload →
      (tryHandleMQTTMessage P cfg now st payload).1.nodeDB =
        updateNodeDB st.nodeDB env.packet.fromNode
          (setPosition positionPayload) now) ∧
    (∀ env data telemetryPayload deviceMetrics,
      P.unmarshalEnvelope payload = some env →
      env.channelId = (primaryChannel cfg).name →
      TryDecode P.xorDecrypt P.unmarshalData env.packet
        (primaryChannel cfg).psk = .ok data →
      data.portnum = .telemetryApp →
      P.unmarshalTelemetry data.payload = some telemetryPayload →
      telemetryPayload.deviceMetrics = some deviceMetrics →
      (tryHandleMQTTMessage P cfg now st payload).1.nodeDB =
        updateNodeDB st.nodeDB env.packet.fromNode
          (setDeviceMetrics deviceMetrics) now) ∧
    (∀ env data, P.unmarshalEnvelope payload = some env →
      env.channelId = (primaryChannel cfg).name →
      TryDecode P.xorDecrypt P.unmarshalData env.packet
        (primaryChannel cfg).psk = .ok data →
      data.portnum ≠ .nodeinfoApp → data.portnum ≠ .positionApp →
      data.portnum ≠ .telemetryApp →
      (tryHandleMQTTMessage P cfg now st payload).1.nodeDB = st.nodeDB) := by
  refine ⟨?_, ?_, ?_, ?_, ?_, ?_, ?_, ?_⟩
  · intro h
    simp [tryHandleMQTTMessage, h]
  · intro env h
    simp [tryHandleMQTTMessage, h]
  · intro env h hc
    simp [tryHandleMQTTMessage, h, handlePrimaryChannel, hc]
  · intro env e h hdec
    by_cases hc : env.channelId = (primaryChannel cfg).name
    · simp [tryHandleMQTTMessage, h, handlePrimaryChannel, hc, hdec]
    · simp [tryHandleMQTTMessage, h, handlePrimaryChannel, hc]
  · intro env data user h hc hdec hport hu
    simp [tryHandleMQTTMessage, h, handlePrimaryChannel, hc, hdec, hport, hu]
  · intro env data positionPayload h hc hdec hport hp
    simp [tryHandleMQTTMessage, h, handlePrimaryChannel, hc, hdec, hport, hp]
  · intro env data telemetryPayload deviceMetrics h hc hdec hport ht hdm
    simp [tryHandleMQTTMessage, h, handlePrimaryChannel, hc, hdec, hport, ht, hdm]
  · intro env data h hc hdec h1 h2 h3
    cases hport : data.portnum with
    | nodeinfoApp => exact absurd hport h1
    | positionApp => exact absurd hport h2
    | telemetryApp => exact absurd hport h3
    | textMessageApp =>
      simp [tryHandleMQTTMessage, h, handlePrimaryChannel, hc, hdec, hport]
    | routingApp =>
      cases hr : P.unmarshalRouting data.payload with
      | none =>
        simp [tryHandleMQTTMessage, h, handlePrimaryChannel, hc, hdec, hport, hr]
      | some r =>
        simp [tryHandleMQTTMessage, h, handlePrimaryChannel, hc, hdec, hport, hr]
    | adminApp =>
      simp [tryHandleMQTTMessage, h, handlePrimaryChannel, hc, hdec, hport]
    | unknownApp n =>
      simp [tryHandleMQTTMessage, h, handlePrimaryChannel, hc, hdec, hport]

/-- Witness for C2: a concrete NodeInfo envelope on the primary channel
updates the nodeDB and is fanned out to both registered subscribers. -/
theorem mqtt_bridge_dispatch_witness :
    (tryHandleMQTTMessage P0 cfg0 5 st0 [0]).1.nodeDB =
      updateNodeDB st0.nodeDB env0.packet.fromNode (setUser u0) 5 ∧
    (tryHandleMQTTMessage P0 cfg0 5 st0 [0]).1.subs =
      dispatchMessageToFromRadio st0.subs (FromRadio.packet env0.packet) := by
  have h := mqtt_bridge_dispatch P0 cfg0 5 st0 [0]
  exact ⟨h.2.2.2.2.1 env0 data0 u0 rfl rfl rfl rfl rfl, h.2.1 env0 rfl⟩

/-! ## Theorem for claim C3 -/

/-- Claim C3: a ToRadio packet whose decoded Data has portnum ADMIN_APP and
whose payload unmarshals as an AdminMessage GetChannelRequest is answered
with a FromRadio packet whose decoded Data has portnum ADMIN_APP,
request_id equal to the id of the incoming packet, and a payload that
deserializes as an AdminMessage GetChannelResponse carrying the channel
with index 0, empty psk and role DISABLED. -/
theorem admin_getChannel_reply
    (unmarshalAdmin : Bytes → Option AdminMessage)
    (marshalAdmin : AdminMessage → Bytes) (cfg : RadioConfig)
    (packetID : Nat) (p : MeshPacket) (d : Data) (i : Nat)
    (hdec : p.payloadVariant = .decoded d)
    (hport : d.portnum = .adminApp)
    (hadm : unmarshalAdmin d.payload =
      some { payloadVariant := .getChannelRequest i })
    (hround : unmarshalAdmin (marshalAdmin getChannelResponseHack) =
      some getChannelResponseHack) :
    ∃ reply newID,
      handleToRadioPacket unmarshalAdmin marshalAdmin cfg packetID p =
        .ok (some (FromRadio.packet reply), newID) ∧
      ∃ rd, reply.payloadVariant = .decoded rd ∧
        rd.portnum = .adminApp ∧ rd.requestId = p.id ∧
        unmarshalAdmin rd.payload =
          some { payloadVariant := .getChannelResponse disabledChannel0 } ∧
        disabledChannel0.index = 0 ∧ disabledChannel0.settings.psk = [] ∧
        disabledChannel0.role = .disabled := by
  refine ⟨{ id := (nextPacketID packetID).1, fromNode := cfg.nodeId,
            toNode := cfg.nodeId,
            payloadVariant := .decoded
              { portnum := .adminApp,
                payload := marshalAdmin getChannelResponseHack,
                requestId := p.id } },
          (nextPacketID packetID).2, ?_, ?_⟩
  · simp [handleToRadioPacket, hdec, hport, hadm]
  · refine ⟨_, rfl, rfl, rfl, ?_, rfl, rfl, rfl⟩
    simpa [getChannelResponseHack] using hround

/-- Witness for C3: a concrete GetChannelRequest with packet id 77. -/
theorem admin_getChannel_reply_witness :
    handleToRadioPacket unmarshalAdmin0 marshalAdmin0 cfg0 0 adminPkt0 =
      .ok (some (FromRadio.packet
        { id := 1, fromNode := 0x42, toNode := 0x42,
          payloadVariant := .decoded
            { portnum := .adminApp, payload := [0], requestId := 77 } }), 1) ∧
    unmarshalAdmin0 [0] =
      some { payloadVariant := .getChannelResponse disabledChannel0 } := by
  obtain ⟨reply, newID, h1, rd, h2, h3, h4, h5⟩ :=
    admin_getChannel_reply unmarshalAdmin0 marshalAdmin0 cfg0 0 adminPkt0
      { portnum := .adminApp, payload := [1], requestId := 0 } 0 rfl rfl
      (by decide) (by decide)
  exact ⟨rfl, rfl⟩

/-! ## Theorem for claim C8 -/

/-- Claim C8 (code bug): with both broadcast intervals zero and no TCP
listen address, `Run` spawns no goroutine, so `eg.Wait()` — and hence
`Run` — returns immediately although the cancellation never fired; and
with a TCP listener configured, `Run` does not return even after the
cancellation fires, because the accept loop in `listenTCP` never consults
the context. Both contradict the claim (and the doc comment of `Run`):
`Run` neither blocks until cancellation in the first configuration nor
returns on cancellation in the second. -/
theorem run_termination_bug :
    runReturns cfgZeroTasks false = true ∧
    runReturns cfgWithTCP true = false := by
  constructor
  · rfl
  · rfl

/-! ## Theorems for claim C9 -/

/-- Counterexample for C9 as stated: the subscriber queue `handleConn`
registers is an unbuffered Go channel, and `dispatchMessageToFromRadio`
delivers with a plain blocking send; when the subscriber writer goroutine
is not at its receive (for example, blocked writing to a stalled client),
the send does not complete — the enqueue is not non-blocking. -/
theorem fanout_send_blocks :
    chanSendCompletes
      { capacity := handleConnSubscriberChanCap, buffered := 0,
        receiverWaiting := false } = false := rfl

/-- Claim C9 as amended: fan-out enqueues with a blocking send on an
unbuffered channel, so delivering one envelope to a subscriber completes
exactly when that subscriber writer goroutine is ready to receive — a
stalled stream client therefore blocks the MQTT bridge — and nothing is
dropped: every registered subscriber queue is handed exactly this one
message. -/
theorem fanout_blocking_amended (ch : GoChan)
    (hcap : ch.capacity = handleConnSubscriberChanCap) :
    (chanSendCompletes ch = true ↔ ch.receiverWaiting = true) ∧
    (∀ subs msg, dispatchMessageToFromRadio subs msg =
      subs.map fun queue => queue ++ [msg]) := by
  constructor
  · simp [chanSendCompletes, hcap, handleConnSubscriberChanCap,
      Nat.not_lt_zero]
  · intro subs msg
    rfl

/-- Witness for the amended C9. -/
theorem fanout_blocking_amended_witness :
    (chanSendCompletes
        { capacity := 0, buffered := 0, receiverWaiting := true } = true ↔
      (true : Bool) = true) ∧
    dispatchMessageToFromRadio [[]] (FromRadio.configCompleteId 1) =
      [[FromRadio.configCompleteId 1]] :=
  ⟨(fanout_blocking_amended
      { capacity := 0, buffered := 0, receiverWaiting := true } rfl).1,
   (fanout_blocking_amended
      { capacity := 0, buffered := 0, receiverWaiting := true } rfl).2
      [[]] (FromRadio.configCompleteId 1)⟩

/-! ## Theorems for claim C10 -/

theorem connectStep_no_dispatch (s : ClientState) (msg : FromRadio)
    (h : s.complete = false) : (connectStep s msg).2 = none := by
  cases msg <;> simp [connectStep, h]

theorem connectStep_complete_of_not_cci (s : ClientState) (msg : FromRadio)
    (h : isConfigCompleteMsg msg = false) :
    (connectStep s msg).1.complete = s.complete := by
  cases msg <;> simp_all [connectStep, isConfigCompleteMsg]

theorem connectRun_no_dispatch_aux (msgs : List FromRadio) :
    ∀ s : ClientState, s.complete = false →
    (∀ m ∈ msgs, isConfigCompleteMsg m = false) →
    (connectRun s msgs).2 = [] ∧ (connectRun s msgs).1.complete = false := by
  induction msgs with
  | nil =>
    intro s hs _
    exact ⟨rfl, hs⟩
  | cons m rest ih =>
    intro s hs hall
    have hm : isConfigCompleteMsg m = false := hall m (List.mem_cons_self _ _)
    have hstep := connectStep_no_dispatch s m hs
    have hcomp : (connectStep s m).1.complete = false :=
      (connectStep_complete_of_not_cci s m hm).trans hs
    have hrest := ih (connectStep s m).1 hcomp
      (fun x hx => hall x (List.mem_cons_of_mem _ hx))
    constructor
    · show (connectStep s m).2.toList ++
        (connectRun (connectStep s m).1 rest).2 = []
      rw [hstep, hrest.1]
      rfl
    · exact hrest.2

/-- Claim C10: in the `Client.Connect` read loop, no registered handler is
invoked while `State.Complete()` is false — each step only updates the
client state — and over any sequence of received messages containing no
`ConfigCompleteId`, starting from the fresh client state, no handler
dispatch occurs at all. -/
theorem client_no_dispatch_before_complete :
    (∀ (s : ClientState) (msg : FromRadio), s.complete = false →
      (connectStep s msg).2 = none) ∧
    (∀ msgs : List FromRadio, (∀ m ∈ msgs, isConfigCompleteMsg m = false) →
      (connectRun {} msgs).2 = []) :=
  ⟨connectStep_no_dispatch,
   fun msgs hall => (connectRun_no_dispatch_aux msgs {} rfl hall).1⟩

/-- Witness for C10 on a concrete pre-handshake message sequence. -/
theorem client_no_dispatch_before_complete_witness :
    (connectStep {} (FromRadio.myInfo { myNodeNum := 1 })).2 = none ∧
    (connectRun {} [FromRadio.myInfo { myNodeNum := 1 },
      FromRadio.channel
        { index := 0, settings := {}, role := .primaryRole }]).2 = [] :=
  ⟨client_no_dispatch_before_complete.1 {} _ rfl,
   client_no_dispatch_before_complete.2 _ (by decide)⟩

end Meshtool
